import Mathlib

/-!
Shallow embedding of the `ChatParrotLink` custom chat model from
`docs/docs/how_to/custom_chat_model.ipynb`, together with the framework
entry points the notebook invokes (`invoke`, `batch`, `stream`, `astream`).

Python strings are modelled as lists of characters; fallible operations
(indexing `messages[-1]`, which raises `IndexError` on an empty list)
return `Option`.
-/

namespace ParrotLink

/-- Python text content, modelled as a list of characters. -/
abbrev Content := List Char

/-- Python slicing `s[:k]` for a Python `int` slice bound `k`
(a negative bound counts from the end of the string). -/
def pyTake (k : Int) (s : Content) : Content :=
  if 0 ≤ k then s.take k.toNat else s.take (s.length - (-k).toNat)

/-- The message roles of the `langchain_core` message classes imported by
the notebook (`HumanMessage`, `AIMessage`, `SystemMessage`, `ToolMessage`,
`FunctionMessage`). -/
inductive Role
  | system
  | human
  | ai
  | tool
  | function
deriving DecidableEq

/-- `BaseMessage`: a role (the concrete message class) and text content.
Only the content is inspected by `ChatParrotLink`. -/
structure BaseMessage where
  role : Role
  content : Content
deriving DecidableEq

/-- A value stored in a metadata dictionary (`response_metadata`,
`additional_kwargs`): the notebook only stores ints and strings. -/
inductive MetaValue
  | int : Int → MetaValue
  | str : String → MetaValue
deriving DecidableEq

/-- A Python metadata dictionary, as an association list. -/
abbrev Metadata := List (String × MetaValue)

/-- `UsageMetadata` from `langchain_core.messages.ai`. -/
structure UsageMetadata where
  input_tokens : Nat
  output_tokens : Nat
  total_tokens : Nat
deriving DecidableEq

/-- The `AIMessage` constructed by `ChatParrotLink._generate`. -/
structure AIMessage where
  content : Content
  additional_kwargs : Metadata := []
  response_metadata : Metadata := []
  usage_metadata : Option UsageMetadata := none
deriving DecidableEq

/-- The `AIMessageChunk` constructed by `ChatParrotLink._stream`. -/
structure AIMessageChunk where
  content : Content
  usage_metadata : Option UsageMetadata := none
  response_metadata : Metadata := []
deriving DecidableEq

/-- `ChatGeneration` from `langchain_core.outputs`. -/
structure ChatGeneration where
  message : AIMessage
deriving DecidableEq

/-- `ChatGenerationChunk` from `langchain_core.outputs`. -/
structure ChatGenerationChunk where
  message : AIMessageChunk
deriving DecidableEq

/-- `ChatResult` from `langchain_core.outputs`. -/
structure ChatResult where
  generations : List ChatGeneration
deriving DecidableEq

/-- The `ChatParrotLink` pydantic model: its configuration fields.
`temperature` is a Python `Optional[float]`, modelled as `Option Rat`;
it is never read by the notebook's logic, so its representation is
immaterial. -/
structure ChatParrotLink where
  model_name : String
  parrot_buffer_length : Int
  temperature : Option Rat := none
  max_tokens : Option Int := none
  timeout : Option Int := none
  stop : Option (List String) := none
  max_retries : Int := 2
deriving DecidableEq

/-- `ChatParrotLink._generate`: echo the first `parrot_buffer_length`
characters of the last message, reporting token counts.  `messages[-1]`
raises `IndexError` on an empty list, modelled by `Option`. -/
def ChatParrotLink._generate (self : ChatParrotLink) (messages : List BaseMessage) :
    Option ChatResult :=
  (messages.getLast?).map fun last_message =>
    let tokens := pyTake self.parrot_buffer_length last_message.content
    let ct_input_tokens := (messages.map fun message => message.content.length).sum
    let ct_output_tokens := tokens.length
    let message : AIMessage :=
      { content := tokens
        additional_kwargs := []
        response_metadata :=
          [("time_in_seconds", MetaValue.int 3),
           ("model_name", MetaValue.str self.model_name)]
        usage_metadata := some
          { input_tokens := ct_input_tokens
            output_tokens := ct_output_tokens
            total_tokens := ct_input_tokens + ct_output_tokens } }
    let generation : ChatGeneration := { message := message }
    { generations := [generation] }

/-- The `for token in tokens` loop of `ChatParrotLink._stream`: one chunk
per character; `ct_input_tokens` is reset to `0` after the first
iteration. -/
def streamTokenChunks : Nat → Content → List ChatGenerationChunk
  | _, [] => []
  | ct_input_tokens, token :: rest =>
    { message :=
        { content := [token]
          usage_metadata := some
            { input_tokens := ct_input_tokens
              output_tokens := 1
              total_tokens := ct_input_tokens + 1 }
          response_metadata := [] } } :: streamTokenChunks 0 rest

/-- `ChatParrotLink._stream`: one chunk per echoed character, then a final
empty chunk carrying response metadata.  The generator evaluates
`messages[-1]` before its first yield, so an empty list raises
`IndexError` before any chunk is produced, modelled by `Option`. -/
def ChatParrotLink._stream (self : ChatParrotLink) (messages : List BaseMessage) :
    Option (List ChatGenerationChunk) :=
  (messages.getLast?).map fun last_message =>
    let tokens := pyTake self.parrot_buffer_length last_message.content
    let ct_input_tokens := (messages.map fun message => message.content.length).sum
    streamTokenChunks ct_input_tokens tokens ++
      [{ message :=
          { content := []
            usage_metadata := none
            response_metadata :=
              [("time_in_sec", MetaValue.int 3),
               ("model_name", MetaValue.str self.model_name)] } }]

/-- Modelled from the spec: the framework's single-invocation entry point
(`model.invoke`) is defined by the external base class, which is not under
the sources here; per the spec it converts a string prompt into a single
human message and delegates to the subclass's `_generate`. -/
def ChatParrotLink.invoke (self : ChatParrotLink) (prompt : Content) : Option ChatResult :=
  self._generate [{ role := Role.human, content := prompt }]

/-- Modelled from the spec: the external base class's threadpool-based
`batch` is inherited unmodified and, per the spec, performs pointwise
single invocation of each prompt, preserving order. -/
def ChatParrotLink.batch (self : ChatParrotLink) (prompts : List Content) :
    List (Option ChatResult) :=
  prompts.map self.invoke

/-- Modelled from the spec: the framework's synchronous `stream` entry
point converts a string prompt into a single human message and iterates
the subclass's `_stream`. -/
def ChatParrotLink.stream (self : ChatParrotLink) (prompt : Content) :
    Option (List ChatGenerationChunk) :=
  self._stream [{ role := Role.human, content := prompt }]

/-- Modelled from the spec: the subclass defines no `_astream`, so
`astream` falls back to the external base class's async-from-sync
executor bridge, which yields exactly the chunks of the synchronous
stream. -/
def ChatParrotLink.astream (self : ChatParrotLink) (prompt : Content) :
    Option (List ChatGenerationChunk) :=
  self.stream prompt

/-- The `input_tokens` reported by a chunk (`0` when the chunk carries no
usage metadata). -/
def chunkInputTokens (c : ChatGenerationChunk) : Nat :=
  (c.message.usage_metadata.map fun u => u.input_tokens).getD 0

/-- The `output_tokens` reported by a chunk (`0` when the chunk carries no
usage metadata). -/
def chunkOutputTokens (c : ChatGenerationChunk) : Nat :=
  (c.message.usage_metadata.map fun u => u.output_tokens).getD 0

/-- The final chunk yielded by `ChatParrotLink._stream`: empty content,
no usage metadata, response metadata with the model name. -/
def finalChunk (model_name : String) : ChatGenerationChunk :=
  { message :=
      { content := []
        usage_metadata := none
        response_metadata :=
          [("time_in_sec", MetaValue.int 3),
           ("model_name", MetaValue.str model_name)] } }

/-- For a non-negative slice bound, Python slicing is `List.take`. -/
theorem pyTake_nonneg (k : Int) (s : Content) (hk : 0 ≤ k) :
    pyTake k s = s.take k.toNat := if_pos hk

/-- Explicit form of `_generate` on a list whose last element is `last`. -/
theorem generate_eq (self : ChatParrotLink) (messages : List BaseMessage)
    (last : BaseMessage) (hlast : messages.getLast? = some last) :
    self._generate messages = some
      { generations := [{ message :=
          { content := pyTake self.parrot_buffer_length last.content
            additional_kwargs := []
            response_metadata :=
              [("time_in_seconds", MetaValue.int 3),
               ("model_name", MetaValue.str self.model_name)]
            usage_metadata := some
              { input_tokens := (messages.map fun message => message.content.length).sum
                output_tokens := (pyTake self.parrot_buffer_length last.content).length
                total_tokens := (messages.map fun message => message.content.length).sum +
                  (pyTake self.parrot_buffer_length last.content).length } } }] } := by
  simp [ChatParrotLink._generate, hlast]

/-- Explicit form of `_stream` on a list whose last element is `last`. -/
theorem stream_eq (self : ChatParrotLink) (messages : List BaseMessage)
    (last : BaseMessage) (hlast : messages.getLast? = some last) :
    self._stream messages = some
      (streamTokenChunks ((messages.map fun message => message.content.length).sum)
          (pyTake self.parrot_buffer_length last.content) ++
        [finalChunk self.model_name]) := by
  simp [ChatParrotLink._stream, hlast, finalChunk]

/-- The per-token chunks carry exactly the echoed characters, one each,
in order. -/
theorem streamTokenChunks_map_content (n : Nat) (toks : Content) :
    (streamTokenChunks n toks).map (fun c => c.message.content) =
      toks.map fun t => [t] := by
  induction toks generalizing n with
  | nil => rfl
  | cons t rest ih => simp [streamTokenChunks, ih]

/-- One chunk per echoed character. -/
theorem streamTokenChunks_length (n : Nat) (toks : Content) :
    (streamTokenChunks n toks).length = toks.length := by
  induction toks generalizing n with
  | nil => rfl
  | cons t rest ih => simp [streamTokenChunks, ih]

/-- Flattening singleton lists recovers the original list. -/
theorem flatten_map_singleton (toks : Content) :
    (toks.map fun t => [t]).flatten = toks := by
  induction toks with
  | nil => rfl
  | cons t rest ih => simp [ih]

/-- After the counter is reset to `0`, every chunk reports `0` input
tokens. -/
theorem streamTokenChunks_input_zero (toks : Content) :
    ∀ c ∈ streamTokenChunks 0 toks, chunkInputTokens c = 0 := by
  induction toks with
  | nil => intro c hc; cases hc
  | cons t rest ih =>
    intro c hc
    rcases (List.mem_cons).mp hc with h | h
    · subst h; rfl
    · exact ih c h

/-- The chunks after the counter reset contribute `0` to the input-token
sum. -/
theorem streamTokenChunks_input_sum_zero (toks : Content) :
    ((streamTokenChunks 0 toks).map chunkInputTokens).sum = 0 := by
  induction toks with
  | nil => rfl
  | cons t rest ih => simp [streamTokenChunks, ih, chunkInputTokens]

/-- On a non-empty token list the input-token sum over the per-token
chunks is the initial counter value: the first chunk carries all of it. -/
theorem streamTokenChunks_input_sum (n : Nat) (toks : Content) (h : toks ≠ []) :
    ((streamTokenChunks n toks).map chunkInputTokens).sum = n := by
  cases toks with
  | nil => exact absurd rfl h
  | cons t rest =>
    simp [streamTokenChunks, chunkInputTokens, streamTokenChunks_input_sum_zero rest]

/-- Every per-token chunk carries usage metadata reporting exactly one
output token. -/
theorem streamTokenChunks_output (n : Nat) (toks : Content) :
    ∀ c ∈ streamTokenChunks n toks,
      ∃ u, c.message.usage_metadata = some u ∧ u.output_tokens = 1 := by
  induction toks generalizing n with
  | nil => intro c hc; cases hc
  | cons t rest ih =>
    intro c hc
    rcases (List.mem_cons).mp hc with h | h
    · subst h; exact ⟨_, rfl, rfl⟩
    · exact ih 0 c h

/-- The output-token sum over the per-token chunks is the number of
echoed characters. -/
theorem streamTokenChunks_output_sum (n : Nat) (toks : Content) :
    ((streamTokenChunks n toks).map chunkOutputTokens).sum = toks.length := by
  induction toks generalizing n with
  | nil => rfl
  | cons t rest ih => simp [streamTokenChunks, chunkOutputTokens, ih, Nat.add_comm]

/-- Claim C1: for every non-empty list of input messages (witnessed by its
last element), `_generate` returns a `ChatResult` containing exactly one
generation whose `AIMessage` content equals the first
`parrot_buffer_length` characters of the last message's content, the
whole content when it is shorter than `parrot_buffer_length` (stated for
the non-negative buffer lengths the claim's wording presupposes). -/
theorem generate_echoes_last_prefix (self : ChatParrotLink)
    (messages : List BaseMessage) (last : BaseMessage)
    (hlast : messages.getLast? = some last)
    (hk : 0 ≤ self.parrot_buffer_length) :
    ∃ g : ChatGeneration,
      self._generate messages = some { generations := [g] } ∧
      g.message.content = last.content.take self.parrot_buffer_length.toNat ∧
      (last.content.length ≤ self.parrot_buffer_length.toNat →
        g.message.content = last.content) := by
  refine ⟨_, generate_eq self messages last hlast, ?_, ?_⟩
  · exact pyTake_nonneg _ _ hk
  · intro hle
    rw [pyTake_nonneg _ _ hk] at *
    exact List.take_of_length_le hle

/-- Claim C2: the output equals the input prompt truncated to the
configured length: on a single prompt message, the content of the message
returned by `_generate` is the prompt's content truncated to
`parrot_buffer_length` characters (stated for the non-negative buffer
lengths the claim's wording presupposes). -/
theorem generate_truncates_prompt (self : ChatParrotLink) (m : BaseMessage)
    (hk : 0 ≤ self.parrot_buffer_length) :
    ∃ g : ChatGeneration,
      self._generate [m] = some { generations := [g] } ∧
      g.message.content = m.content.take self.parrot_buffer_length.toNat := by
  refine ⟨_, generate_eq self [m] m rfl, ?_⟩
  exact pyTake_nonneg _ _ hk

/-- Claim C3: the usage metadata reported by `_generate` counts
`input_tokens` as the sum of the content lengths of all input messages,
`output_tokens` as the length of the echoed (truncated) output, and
`total_tokens` as their sum. -/
theorem generate_usage_counts (self : ChatParrotLink)
    (messages : List BaseMessage) (last : BaseMessage)
    (hlast : messages.getLast? = some last) :
    ∃ (g : ChatGeneration) (u : UsageMetadata),
      self._generate messages = some { generations := [g] } ∧
      g.message.usage_metadata = some u ∧
      u.input_tokens = (messages.map fun message => message.content.length).sum ∧
      u.output_tokens = g.message.content.length ∧
      u.total_tokens = u.input_tokens + u.output_tokens :=
  ⟨_, _, generate_eq self messages last hlast, rfl, rfl, rfl, rfl⟩

/-- Claim C4: the concatenation of the contents of all chunks yielded by
`_stream` equals the content of the single message returned by
`_generate` on the same input. -/
theorem stream_concat_eq_generate (self : ChatParrotLink)
    (messages : List BaseMessage) (last : BaseMessage)
    (hlast : messages.getLast? = some last) :
    ∃ (cs : List ChatGenerationChunk) (g : ChatGeneration),
      self._stream messages = some cs ∧
      self._generate messages = some { generations := [g] } ∧
      (cs.map fun c => c.message.content).flatten = g.message.content := by
  refine ⟨_, _, stream_eq self messages last hlast,
    generate_eq self messages last hlast, ?_⟩
  simp [streamTokenChunks_map_content, finalChunk, flatten_map_singleton]

/-- Claim C5: the configuration fields `temperature`, `max_tokens`,
`timeout`, `stop`, and `max_retries` have no effect on the output: two
instances agreeing on `model_name` and `parrot_buffer_length` produce
identical `_generate` and `_stream` results on every input. -/
theorem config_fields_no_effect (a b : ChatParrotLink)
    (hm : a.model_name = b.model_name)
    (hp : a.parrot_buffer_length = b.parrot_buffer_length)
    (messages : List BaseMessage) :
    a._generate messages = b._generate messages ∧
    a._stream messages = b._stream messages := by
  constructor <;> simp [ChatParrotLink._generate, ChatParrotLink._stream, hm, hp]

/-- Claim C6: batch invocation is pointwise single invocation: `batch`
preserves the number of prompts and its i-th result is the result of
invoking the model on the i-th prompt alone, in order. -/
theorem batch_pointwise_invoke (self : ChatParrotLink) (prompts : List Content) :
    (self.batch prompts).length = prompts.length ∧
    ∀ i : Nat, (self.batch prompts)[i]? = (prompts[i]?).map self.invoke := by
  constructor
  · simp [ChatParrotLink.batch]
  · intro i
    simp [ChatParrotLink.batch, List.getElem?_map]

/-- Claim C7: asynchronous streaming is equivalent to synchronous
streaming: `astream` yields the same sequence of chunk contents, in the
same order, as `stream` on every prompt (indeed the same chunks). -/
theorem astream_eq_stream (self : ChatParrotLink) (prompt : Content) :
    (self.astream prompt).map (fun cs => cs.map fun c => c.message.content) =
      (self.stream prompt).map (fun cs => cs.map fun c => c.message.content) ∧
    self.astream prompt = self.stream prompt :=
  ⟨rfl, rfl⟩

/-- Claim C8: both `_generate` and `_stream` fail (Python `IndexError`
from `messages[-1]`) exactly on the empty message list, before producing
any result or chunk; on every non-empty list this error branch is
unreachable. -/
theorem empty_messages_error (self : ChatParrotLink) (messages : List BaseMessage) :
    (self._generate messages = none ↔ messages = []) ∧
    (self._stream messages = none ↔ messages = []) := by
  constructor <;>
    simp [ChatParrotLink._generate, ChatParrotLink._stream,
      Option.map_eq_none', List.getLast?_eq_none_iff]

/-- The configuration of the counterexample to claim C9 as stated. -/
def parrotCex : ChatParrotLink :=
  { model_name := "bird-brain-001", parrot_buffer_length := 3 }

/-- A non-empty conversation whose last message has empty content. -/
def messagesCex : List BaseMessage :=
  [{ role := Role.human, content := ['h', 'i'] },
   { role := Role.ai, content := [] }]

/-- Counterexample to claim C9 as stated: on a non-empty message list
whose truncated last-message content is empty, `_stream` yields no
content chunks, so the summed `input_tokens` over all yielded chunks is
`0` while the total content length of the input messages is `2`. -/
theorem stream_input_sum_counterexample :
    (parrotCex._stream messagesCex).map (fun cs => (cs.map chunkInputTokens).sum) =
      some 0 ∧
    (messagesCex.map fun message => message.content.length).sum = 2 ∧
    (parrotCex._stream messagesCex).map (fun cs => (cs.map chunkInputTokens).sum) ≠
      some ((messagesCex.map fun message => message.content.length).sum) := by
  decide

/-- Claim C9 (amended): token accounting across streaming: the summed
`input_tokens` over all chunks yielded by `_stream` equals the total
content length of all input messages whenever the truncated last-message
content is non-empty, and `0` when it is empty (no chunk then carries
usage metadata); when chunks carry it, the first chunk carries the whole
count and every later chunk carries `0`; each content chunk reports
`output_tokens` equal to `1`, so the summed `output_tokens` equals the
length of the truncated output; and the final empty chunk carries no
usage metadata. -/
theorem stream_usage_conservation (self : ChatParrotLink)
    (messages : List BaseMessage) (last : BaseMessage)
    (hlast : messages.getLast? = some last) :
    ∃ cs : List ChatGenerationChunk,
      self._stream messages = some cs ∧
      (cs.map chunkInputTokens).sum =
        (if pyTake self.parrot_buffer_length last.content = [] then 0
         else (messages.map fun message => message.content.length).sum) ∧
      (∀ c, cs.head? = some c →
        pyTake self.parrot_buffer_length last.content ≠ [] →
        chunkInputTokens c = (messages.map fun message => message.content.length).sum) ∧
      (∀ c ∈ cs.tail, chunkInputTokens c = 0) ∧
      (∀ c ∈ cs.dropLast, ∃ u, c.message.usage_metadata = some u ∧ u.output_tokens = 1) ∧
      (cs.map chunkOutputTokens).sum =
        (pyTake self.parrot_buffer_length last.content).length ∧
      (∃ fc, cs.getLast? = some fc ∧ fc.message.usage_metadata = none) := by
  refine ⟨_, stream_eq self messages last hlast, ?_, ?_, ?_, ?_, ?_,
    ⟨_, List.getLast?_concat _, rfl⟩⟩
  · cases htoks : pyTake self.parrot_buffer_length last.content with
    | nil => simp [htoks, streamTokenChunks, chunkInputTokens, finalChunk]
    | cons t rest =>
      simp [List.map_append, List.sum_append,
        streamTokenChunks_input_sum _ _ (List.cons_ne_nil t rest),
        chunkInputTokens, finalChunk]
  · intro c hc hne
    cases htoks : pyTake self.parrot_buffer_length last.content with
    | nil => exact absurd htoks hne
    | cons t rest =>
      rw [htoks] at hc
      simp only [streamTokenChunks, List.cons_append, List.head?_cons,
        Option.some.injEq] at hc
      subst hc
      rfl
  · intro c hc
    cases htoks : pyTake self.parrot_buffer_length last.content with
    | nil =>
      rw [htoks] at hc
      simp [streamTokenChunks] at hc
    | cons t rest =>
      rw [htoks] at hc
      simp only [streamTokenChunks, List.cons_append, List.tail_cons] at hc
      rcases List.mem_append.mp hc with h | h
      · exact streamTokenChunks_input_zero rest c h
      · rw [List.mem_singleton.mp h]
        rfl
  · intro c hc
    rw [List.dropLast_concat] at hc
    exact streamTokenChunks_output _ _ c hc
  · simp [List.map_append, List.sum_append, streamTokenChunks_output_sum,
      chunkOutputTokens, finalChunk]

/-- Claim C10: `_stream` yields exactly `L + 1` chunks where `L` is the
length of the truncated last-message content: the first `L` chunks each
contain exactly one character, in order, and the final chunk has empty
content and response metadata containing the model name. -/
theorem stream_chunk_shape (self : ChatParrotLink)
    (messages : List BaseMessage) (last : BaseMessage)
    (hlast : messages.getLast? = some last) :
    ∃ cs : List ChatGenerationChunk,
      self._stream messages = some cs ∧
      cs.length = (pyTake self.parrot_buffer_length last.content).length + 1 ∧
      (cs.map fun c => c.message.content) =
        ((pyTake self.parrot_buffer_length last.content).map fun t => [t]) ++ [[]] ∧
      ∃ fc, cs.getLast? = some fc ∧ fc.message.content = [] ∧
        ("model_name", MetaValue.str self.model_name) ∈ fc.message.response_metadata := by
  refine ⟨_, stream_eq self messages last hlast, ?_, ?_,
    ⟨_, List.getLast?_concat _, rfl, ?_⟩⟩
  · simp [streamTokenChunks_length]
  · simp [streamTokenChunks_map_content, finalChunk]
  · simp [finalChunk]

/-- The model instance of the notebook's example invocation. -/
def parrotW : ChatParrotLink :=
  { model_name := "my_custom_model", parrot_buffer_length := 3 }

/-- The message list of the notebook's example invocation. -/
def messagesW : List BaseMessage :=
  [{ role := Role.human, content := ['h', 'e', 'l', 'l', 'o', '!'] },
   { role := Role.ai, content := ['H', 'i', ' ', 't', 'h', 'e', 'r', 'e'] },
   { role := Role.human, content := ['M', 'e', 'o', 'w', '!'] }]

/-- The last message of `messagesW`. -/
def lastW : BaseMessage :=
  { role := Role.human, content := ['M', 'e', 'o', 'w', '!'] }

/-- A model instance agreeing with `parrotW` on `model_name` and
`parrot_buffer_length` but differing in every other configuration
field. -/
def parrotAlt : ChatParrotLink :=
  { model_name := "my_custom_model", parrot_buffer_length := 3,
    temperature := some 1, max_tokens := some 10, timeout := some 5,
    stop := some ["meow"], max_retries := 7 }

/-- Witness for claim C1 at the notebook's example input. -/
theorem generate_echoes_last_prefix_witness :
    ∃ g : ChatGeneration,
      parrotW._generate messagesW = some { generations := [g] } ∧
      g.message.content = lastW.content.take parrotW.parrot_buffer_length.toNat ∧
      (lastW.content.length ≤ parrotW.parrot_buffer_length.toNat →
        g.message.content = lastW.content) :=
  generate_echoes_last_prefix parrotW messagesW lastW (by decide) (by decide)

/-- Witness for claim C2 at a single concrete prompt message. -/
theorem generate_truncates_prompt_witness :
    ∃ g : ChatGeneration,
      parrotW._generate [lastW] = some { generations := [g] } ∧
      g.message.content = lastW.content.take parrotW.parrot_buffer_length.toNat :=
  generate_truncates_prompt parrotW lastW (by decide)

/-- Witness for claim C3 at the notebook's example input. -/
theorem generate_usage_counts_witness :
    ∃ (g : ChatGeneration) (u : UsageMetadata),
      parrotW._generate messagesW = some { generations := [g] } ∧
      g.message.usage_metadata = some u ∧
      u.input_tokens = (messagesW.map fun message => message.content.length).sum ∧
      u.output_tokens = g.message.content.length ∧
      u.total_tokens = u.input_tokens + u.output_tokens :=
  generate_usage_counts parrotW messagesW lastW (by decide)

/-- Witness for claim C4 at the notebook's example input. -/
theorem stream_concat_eq_generate_witness :
    ∃ (cs : List ChatGenerationChunk) (g : ChatGeneration),
      parrotW._stream messagesW = some cs ∧
      parrotW._generate messagesW = some { generations := [g] } ∧
      (cs.map fun c => c.message.content).flatten = g.message.content :=
  stream_concat_eq_generate parrotW messagesW lastW (by decide)

/-- Witness for claim C5: two concrete instances differing in
`temperature`, `max_tokens`, `timeout`, `stop` and `max_retries` produce
the same results. -/
theorem config_fields_no_effect_witness :
    parrotAlt._generate messagesW = parrotW._generate messagesW ∧
    parrotAlt._stream messagesW = parrotW._stream messagesW :=
  config_fields_no_effect parrotAlt parrotW rfl rfl messagesW

/-- Witness for claim C9 (amended) at the notebook's example input. -/
theorem stream_usage_conservation_witness :
    ∃ cs : List ChatGenerationChunk,
      parrotW._stream messagesW = some cs ∧
      (cs.map chunkInputTokens).sum =
        (if pyTake parrotW.parrot_buffer_length lastW.content = [] then 0
         else (messagesW.map fun message => message.content.length).sum) ∧
      (∀ c, cs.head? = some c →
        pyTake parrotW.parrot_buffer_length lastW.content ≠ [] →
        chunkInputTokens c = (messagesW.map fun message => message.content.length).sum) ∧
      (∀ c ∈ cs.tail, chunkInputTokens c = 0) ∧
      (∀ c ∈ cs.dropLast, ∃ u, c.message.usage_metadata = some u ∧ u.output_tokens = 1) ∧
      (cs.map chunkOutputTokens).sum =
        (pyTake parrotW.parrot_buffer_length lastW.content).length ∧
      (∃ fc, cs.getLast? = some fc ∧ fc.message.usage_metadata = none) :=
  stream_usage_conservation parrotW messagesW lastW (by decide)

/-- Witness for claim C10 at the notebook's example input. -/
theorem stream_chunk_shape_witness :
    ∃ cs : List ChatGenerationChunk,
      parrotW._stream messagesW = some cs ∧
      cs.length = (pyTake parrotW.parrot_buffer_length lastW.content).length + 1 ∧
      (cs.map fun c => c.message.content) =
        ((pyTake parrotW.parrot_buffer_length lastW.content).map fun t => [t]) ++ [[]] ∧
      ∃ fc, cs.getLast? = some fc ∧ fc.message.content = [] ∧
        ("model_name", MetaValue.str parrotW.model_name) ∈ fc.message.response_metadata :=
  stream_chunk_shape parrotW messagesW lastW (by decide)

end ParrotLink
